import Mathlib

/-!
Verification of `report_farm_streamlit.py` (farm report application).

The Python program reads five SQLite tables (`animals`, `issue`, `repro`,
`lactation`, `milk_yield`) and computes per-farm statistics.  We embed the
tables as lists of records and each queried computation as a Lean function
that mirrors the SQL and Python control flow.

Modelling notes:
* SQLite TEXT values are Lean `String`s; nullable columns are `Option String`
  (or `Option Int` for `parity`).  The join keys `farm_name`/`ear_tag` and the
  `breeding_date`/`record_date`/`event_date`/`period` columns are modelled as
  total `String`s (a NULL there is modelled as `""`, which sorts below every
  nonempty string exactly as NULL does in SQLite ordering and is rejected by
  the same emptiness checks).
* SQLite TEXT comparison (memcmp on UTF-8 bytes) agrees with the
  codepoint-lexicographic order on `String` used here.
* Python `datetime.date` values are modelled as day numbers (`Int`), with the
  standard proleptic-Gregorian conversions `daysFromCivil`/`civilFromDays`;
  date subtraction is integer subtraction of day numbers.
* Python string operations used by the program (`strip`, `split`, `lower`,
  `strptime`) are modelled by explicit `List Char` functions below so that
  their behaviour can be reasoned about directly.
-/

/-! ### Character-list string utilities -/

/-- Python `s.split(sep)` for a one-character separator. -/
def splitOnChar (sep : Char) : List Char → List (List Char)
  | [] => [[]]
  | c :: cs =>
    if c = sep then [] :: splitOnChar sep cs
    else
      match splitOnChar sep cs with
      | [] => [[c]]
      | p :: ps => (c :: p) :: ps

/-- Python `s.strip()`: drop leading and trailing whitespace. -/
def stripChars (cs : List Char) : List Char :=
  ((cs.dropWhile Char.isWhitespace).reverse.dropWhile Char.isWhitespace).reverse

/-- SQLite `lower()`: ASCII-only lowercasing. -/
def lowerChars (cs : List Char) : List Char :=
  cs.map fun c => if 'A' ≤ c ∧ c ≤ 'Z' then Char.ofNat (c.toNat + 32) else c

/-- Numeric value of a digit string (only used when all chars are digits). -/
def digitsToNat (cs : List Char) : Nat :=
  cs.foldl (fun n c => n * 10 + (c.toNat - 48)) 0

/-- A fixed-width all-digit field, as matched by CPython `strptime` regexes
(`%Y` is exactly 4 digits, `%m`/`%d` are 1 or 2 digits). -/
def parseField (cs : List Char) (minLen maxLen : Nat) : Option Nat :=
  if minLen ≤ cs.length ∧ cs.length ≤ maxLen ∧ cs.all Char.isDigit then
    some (digitsToNat cs)
  else none

/-! ### Proleptic Gregorian calendar arithmetic -/

def isLeapYear (y : Int) : Bool :=
  (y % 4 = 0 ∧ y % 100 ≠ 0) ∨ y % 400 = 0

def daysInMonth (y : Int) (m : Nat) : Nat :=
  if m = 2 then (if isLeapYear y then 29 else 28)
  else if m = 4 ∨ m = 6 ∨ m = 9 ∨ m = 11 then 30
  else 31

/-- Day number of a civil date (epoch 1970-01-01 = day 0). -/
def daysFromCivil (y : Int) (m d : Nat) : Int :=
  let y2 : Int := if m ≤ 2 then y - 1 else y
  let era : Int := (if 0 ≤ y2 then y2 else y2 - 399) / 400
  let yoe : Int := y2 - era * 400
  let mp : Int := if 2 < m then (m : Int) - 3 else (m : Int) + 9
  let doy : Int := (153 * mp + 2) / 5 + (d : Int) - 1
  let doe : Int := yoe * 365 + yoe / 4 - yoe / 100 + doy
  era * 146097 + doe - 719468

/-- Civil date (year, month, day) of a day number. -/
def civilFromDays (z0 : Int) : Int × Nat × Nat :=
  let z : Int := z0 + 719468
  let era : Int := (if 0 ≤ z then z else z - 146096) / 146097
  let doe : Int := z - era * 146097
  let yoe : Int := (doe - doe / 1460 + doe / 36524 - doe / 146096) / 365
  let y : Int := yoe + era * 400
  let doy : Int := doe - (365 * yoe + yoe / 4 - yoe / 100)
  let mp : Int := (5 * doy + 2) / 153
  let d : Int := doy - (153 * mp + 2) / 5 + 1
  let m : Int := if mp < 10 then mp + 3 else mp - 9
  (if m ≤ 2 then y + 1 else y, m.toNat, d.toNat)

/-- Python `datetime.strptime(s, "%Y-%m-%d").date()`: exactly three
dash-separated digit fields (year 4 digits, month/day 1-2 digits), with range
and calendar validation as done by the `date` constructor; `MINYEAR = 1`.
Returns the day number. -/
def parseDateChars (cs : List Char) : Option Int :=
  match splitOnChar '-' cs with
  | [ys, ms, ds] =>
    match parseField ys 4 4, parseField ms 1 2, parseField ds 1 2 with
    | some y, some m, some d =>
      if 1 ≤ y ∧ 1 ≤ m ∧ m ≤ 12 ∧ 1 ≤ d ∧ d ≤ daysInMonth (y : Int) m then
        some (daysFromCivil (y : Int) m d)
      else none
    | _, _, _ => none
  | _ => none

def parseDate (s : String) : Option Int := parseDateChars s.data

/-- Zero-padded two-digit rendering (as `strftime` `%m`). -/
def pad2 (n : Nat) : String :=
  if n < 10 then "0" ++ toString n else toString n

/-- Zero-padded four-digit rendering (as `strftime` `%Y`). -/
def pad4 (y : Int) : String :=
  if y < 0 then "-" ++ toString (-y).toNat
  else if y.toNat < 10 then "000" ++ toString y.toNat
  else if y.toNat < 100 then "00" ++ toString y.toNat
  else if y.toNat < 1000 then "0" ++ toString y.toNat
  else toString y.toNat

/-- `strftime("%Y-%m")` of a day number. -/
def fmtYM (z : Int) : String :=
  pad4 (civilFromDays z).1 ++ "-" ++ pad2 (civilFromDays z).2.1

/-- `strftime("%Y-%m-%d")` of a day number. -/
def fmtDate (z : Int) : String :=
  fmtYM z ++ "-" ++ pad2 (civilFromDays z).2.2

/-! ### Data model: the five tables used by the program -/

/-- Row of the `animals` table (columns not read by the verified functions
are omitted). -/
structure Animal where
  id : Nat
  farm_name : String
  ear_tag : String
  gender : String
  birth_date : Option String
  deriving DecidableEq

/-- Row of the `issue` (ownership event) table. -/
structure Issue where
  farm_name : String
  ear_tag : String
  event_status : Option String
  event_date : String
  deriving DecidableEq

/-- Row of the `repro` (reproduction record) table (columns not read by the
verified functions are omitted). -/
structure Repro where
  animal_id : Nat
  breeding_date : String
  parity : Option Int
  pregnancy_status : Option String
  delivery_status : Option String
  calving_date : Option String
  deriving DecidableEq

/-- Row of the `lactation` table; `period` is the "start ~ end" string
(`""` models NULL-or-empty, both of which the code treats alike). -/
structure Lactation where
  animal_id : Nat
  period : String
  deriving DecidableEq

/-- Row of the `milk_yield` table. -/
structure MilkYield where
  ear_tag : String
  record_date : String
  record_year : Int
  yield_value : Rat
  deriving DecidableEq

/-- The database contents, with rows listed in table (rowid) order. -/
structure DB where
  animals : List Animal
  issue : List Issue
  repro : List Repro
  lactation : List Lactation
  milk_yield : List MilkYield
  deriving DecidableEq

/-! ### The SQLite TEXT ordering (memcmp on UTF-8 bytes = codepoint lex) -/

/-- Lexicographic comparison of codepoint sequences; this is the order SQLite
uses for `ORDER BY` on TEXT columns with the default BINARY collation. -/
def lexLeb : List Char → List Char → Bool
  | [], _ => true
  | _ :: _, [] => false
  | a :: as, b :: bs =>
    if a.toNat = b.toNat then lexLeb as bs else decide (a.toNat < b.toNat)

/-- The SQLite TEXT order, as a relation on `String`. -/
def strLe (a b : String) : Prop := lexLeb a.data b.data = true

instance : DecidableRel strLe := fun a b => by unfold strLe; infer_instance

instance : IsTotal String strLe := by
  constructor
  intro sa sb
  show lexLeb sa.data sb.data = true ∨ lexLeb sb.data sa.data = true
  generalize sa.data = as
  generalize sb.data = bs
  induction as generalizing bs with
  | nil => left; rfl
  | cons a as ih =>
    cases bs with
    | nil => right; rfl
    | cons b bs =>
      simp only [lexLeb]
      by_cases h : a.toNat = b.toNat
      · rw [if_pos h, if_pos h.symm]
        exact ih bs
      · rcases Nat.lt_or_ge a.toNat b.toNat with h' | h'
        · left
          rw [if_neg h]
          exact decide_eq_true h'
        · right
          have hlt : b.toNat < a.toNat := Nat.lt_of_le_of_ne h' (fun e => h e.symm)
          rw [if_neg (fun e => h e.symm)]
          exact decide_eq_true hlt

instance : IsTrans String strLe := by
  constructor
  intro sa sb sc
  show strLe sa sb → strLe sb sc → strLe sa sc
  rw [strLe, strLe, strLe]
  generalize sa.data = as
  generalize sb.data = bs
  generalize sc.data = cs
  induction as generalizing bs cs with
  | nil => intro _ _; rfl
  | cons a as ih =>
    intro h1 h2
    cases bs with
    | nil => exact absurd h1 (by simp [lexLeb])
    | cons b bs =>
      cases cs with
      | nil => exact absurd h2 (by simp [lexLeb])
      | cons c cs =>
        simp only [lexLeb] at h1 h2 ⊢
        by_cases hab : a.toNat = b.toNat
        · rw [if_pos hab] at h1
          by_cases hbc : b.toNat = c.toNat
          · rw [if_pos hbc] at h2
            rw [if_pos (hab.trans hbc)]
            exact ih bs cs h1 h2
          · rw [if_neg hbc] at h2
            have hlt : a.toNat < c.toNat := hab ▸ of_decide_eq_true h2
            rw [if_neg (Nat.ne_of_lt hlt)]
            exact decide_eq_true hlt
        · rw [if_neg hab] at h1
          have hlt1 : a.toNat < b.toNat := of_decide_eq_true h1
          by_cases hbc : b.toNat = c.toNat
          · have hlt : a.toNat < c.toNat := hbc ▸ hlt1
            rw [if_neg (Nat.ne_of_lt hlt)]
            exact decide_eq_true hlt
          · rw [if_neg hbc] at h2
            have hlt : a.toNat < c.toNat := Nat.lt_trans hlt1 (of_decide_eq_true h2)
            rw [if_neg (Nat.ne_of_lt hlt)]
            exact decide_eq_true hlt

/-! ### `get_filtered_ear_tags` (the Filter Resolver) -/

/-- The multiset of `COALESCE(i.event_status, 'owned')` values produced for one
animal by `animals LEFT JOIN issue ON a.farm_name = i.farm_name AND
a.ear_tag = i.ear_tag`: one value per matching `issue` row, or the single
default `"owned"` when no row matches. -/
def event_statuses (db : DB) (a : Animal) : List String :=
  let ms := (db.issue.filter fun i =>
    i.farm_name = a.farm_name ∧ i.ear_tag = a.ear_tag).map
    fun i => i.event_status.getD "owned"
  if ms = [] then ["owned"] else ms

/-- `get_filtered_ear_tags(farm, status)`.  For a non-"Total" status the SQL
emits one row per (animal, matching-event) pair of the LEFT JOIN whose
coalesced status equals `status`, ordered by `a.ear_tag`; the Python list
comprehension then drops falsy (empty) ear tags. -/
def get_filtered_ear_tags (db : DB) (farm status : String) : List String :=
  if status ≠ "Total" then
    (List.insertionSort strLe
      ((db.animals.filter fun a => a.farm_name = farm).flatMap fun a =>
        ((event_statuses db a).filter fun s => s = status).map
          fun _ => a.ear_tag)).filter fun t => t ≠ ""
  else
    (List.insertionSort strLe
      ((db.animals.filter fun a => a.farm_name = farm).map
        fun a => a.ear_tag)).filter fun t => t ≠ ""

/-! ### Scope-based aggregation queries -/

/-- `get_farm_total_milk_yield_filtered`: `SUM(yield_value)` over milk-yield
rows whose ear tag is in scope (a NULL sum, i.e. no rows, is returned as 0.0;
an empty scope short-circuits to 0.0 before querying). -/
def get_farm_total_milk_yield_filtered (db : DB) (farm status : String) : Rat :=
  let ear_tags := get_filtered_ear_tags db farm status
  if ear_tags.isEmpty then 0
  else ((db.milk_yield.filter fun r => ear_tags.contains r.ear_tag).map
    fun r => r.yield_value).sum

/-- `get_farm_total_lactation_days_filtered`: `COUNT(DISTINCT record_date)`
over milk-yield rows in scope; 0 on an empty scope. -/
def get_farm_total_lactation_days_filtered (db : DB) (farm status : String) : Nat :=
  let ear_tags := get_filtered_ear_tags db farm status
  if ear_tags.isEmpty then 0
  else ((db.milk_yield.filter fun r => ear_tags.contains r.ear_tag).map
    fun r => r.record_date).eraseDups.length

/-- `get_farm_milk_yield_by_year_filtered`: yield sums grouped by
`record_year`, then sorted ascending by year in Python; `[]` on an empty
scope. -/
def get_farm_milk_yield_by_year_filtered (db : DB) (farm status : String) :
    List (Int × Rat) :=
  let ear_tags := get_filtered_ear_tags db farm status
  if ear_tags.isEmpty then []
  else
    let sel := db.milk_yield.filter fun r => ear_tags.contains r.ear_tag
    let years := (sel.map fun r => r.record_year).eraseDups
    (List.insertionSort (· ≤ ·) years).map fun y =>
      (y, ((sel.filter fun r => r.record_year = y).map fun r => r.yield_value).sum)

/-- SQLite `lower(delivery_status) = 'abortion'` (NULL compares unequal). -/
def is_abortion_status : Option String → Bool
  | none => false
  | some s => lowerChars s.data = "abortion".data

/-- `get_farm_abortion_count_filtered`: counts `repro` rows whose `animal_id`
is in `SELECT id FROM animals WHERE ear_tag IN (scope)` — note the inner
select has no farm filter — and whose delivery status lowercases to
"abortion"; 0 on an empty scope. -/
def get_farm_abortion_count_filtered (db : DB) (farm status : String) : Nat :=
  let ear_tags := get_filtered_ear_tags db farm status
  if ear_tags.isEmpty then 0
  else
    let ids := (db.animals.filter fun a => ear_tags.contains a.ear_tag).map
      fun a => a.id
    (db.repro.filter fun r =>
      ids.contains r.animal_id ∧ is_abortion_status r.delivery_status).length

/-! ### Heifer count -/

/-- `get_heifer_count(farm)`: loops over female animals of the farm, skips a
birth date that is falsy or all-whitespace (`if birth_date_str and
birth_date_str.strip()`), skips unparseable dates (`except: continue`), and
counts those with `(today - birth_date).days / 30.5 < 24`. -/
def get_heifer_count (db : DB) (today : Int) (farm : String) : Nat :=
  (((db.animals.filter fun a => a.farm_name = farm ∧ a.gender = "F").filter
    fun a =>
      match a.birth_date with
      | none => false
      | some s =>
        if stripChars s.data = [] then false
        else
          match parseDate s with
          | none => false
          | some b => decide ((((today - b : Int) : Rat) / (61 / 2 : Rat)) < 24))).length

/-! ### Breeding diagnosis and animal category classifiers -/

/-- `ORDER BY breeding_date DESC LIMIT 1` over the animal's repro rows.
SQLite does not specify which row is returned when several share the maximal
breeding date; we model the first such row in table order. -/
def latest_repro (db : DB) (animal_id : Nat) : Option Repro :=
  (db.repro.filter fun r => r.animal_id = animal_id).foldl
    (fun acc r =>
      match acc with
      | none => some r
      | some b => if strLe b.breeding_date r.breeding_date ∧ b.breeding_date ≠ r.breeding_date then some r else some b)
    none

/-- `compute_breeding_diagnosis(ear_tag)`.  `SELECT id, gender FROM animals
WHERE ear_tag=?` with `fetchone` is modelled as the first matching animal in
table order (no row → "Open").  The calving/pregnancy tests mirror
`calving_date and calving_date.strip() != ""` and
`pregnancy_status and pregnancy_status.strip() == "임신"`. -/
def compute_breeding_diagnosis (db : DB) (ear_tag : String) : String :=
  match db.animals.find? (fun a => a.ear_tag = ear_tag) with
  | none => "Open"
  | some a =>
    if a.gender ≠ "F" then "Open"
    else
      match latest_repro db a.id with
      | none => "Mating"
      | some r =>
        if stripChars (r.calving_date.getD "").data ≠ [] then "Open"
        else if stripChars (r.pregnancy_status.getD "").data = "임신".data then "Pregnant"
        else "Mating"

/-- `ORDER BY period DESC LIMIT 1`: the maximal period string (ties all carry
the same string value, so the returned value is well defined). -/
def maxString : List String → Option String
  | [] => none
  | s :: rest =>
    match maxString rest with
    | none => some s
    | some b => if strLe s b then some b else some s

/-- The animal's lactation period selected by `ORDER BY period DESC LIMIT 1`. -/
def latest_period (db : DB) (a : Animal) : Option String :=
  maxString ((db.lactation.filter fun l => l.animal_id = a.id).map fun l => l.period)

/-- The spec's reading of the period string: split "start ~ end" on the `"~"`
separator and parse the stripped end date; `none` when the string cannot be
split into exactly two parts or the end date fails to parse. -/
def period_end (p : String) : Option Int :=
  match splitOnChar '~' p.data with
  | [_, e] => parseDateChars (stripChars e)
  | _ => none

/-- `compute_animal_category(ear_tag)`.  A period with no `"~"` returns
"Fattening" explicitly; a period with two or more `"~"` makes the 2-tuple
unpacking raise `ValueError`, which the surrounding `except` also turns into
"Fattening". -/
def compute_animal_category (db : DB) (today : Int) (ear_tag : String) : String :=
  match db.animals.find? (fun a => a.ear_tag = ear_tag) with
  | none => "Fattening"
  | some a =>
    match latest_period db a with
    | none => "Fattening"
    | some p =>
      if p = "" then "Fattening"
      else if '~' ∉ p.data then "Fattening"
      else
        match splitOnChar '~' p.data with
        | [_, e] =>
          match parseDateChars (stripChars e) with
          | none => "Fattening"
          | some endDay => if today - endDay ≤ 10 then "Milking" else "Dry"
        | _ => "Fattening"

/-! ### Average parity -/

/-- The one bare-column `r.parity` value SQLite returns for each
`GROUP BY a.id` group.  SQLite only guarantees it comes from *some* row of
the group; we model the last matching `repro` row in table order. -/
def parity_samples (db : DB) : List Int :=
  db.animals.filterMap fun a =>
    if a.gender = "F" then
      ((db.repro.filter fun r => r.animal_id = a.id ∧ r.parity.isSome).getLast?).bind
        fun r => r.parity
    else none

/-- The `AVG(parity)` value over the per-group samples (SQL `AVG` of an
empty set is NULL; that case is handled by the caller below). -/
def parity_mean (db : DB) : Rat :=
  ((parity_samples db).map fun p : Int => (p : Rat)).sum /
    ((parity_samples db).length : Rat)

/-- `get_average_parity()`: `AVG(parity)` over one sample per female animal
having a non-NULL-parity repro row.  The Python guard `if row and row[0]:`
treats both a NULL average (no rows) and an average of exactly 0.0 as falsy
and yields the "-" sentinel, modelled as `none`.  (The real code formats the
mean as a one-decimal string for display; we return the exact mean, since the
spec excludes presentation formatting.) -/
def get_average_parity (db : DB) : Option Rat :=
  if parity_samples db = [] then none
  else if parity_mean db = 0 then none
  else some (parity_mean db)

/-! ### 12-month milk yield trend -/

/-- SQLite `strftime('%Y-%m', record_date)`: requires a strict
`YYYY-MM-DD` literal (4-2-2 digits, month 01-12, day 01-31) and normalizes a
day overflow into the following month; any other string yields NULL, modelled
as `none` (such rows group under the NULL key, which matches no label). -/
def month_key (s : String) : Option String :=
  match splitOnChar '-' s.data with
  | [ys, ms, ds] =>
    if ys.length = 4 ∧ ms.length = 2 ∧ ds.length = 2 ∧
        (ys ++ ms ++ ds).all Char.isDigit then
      let y := digitsToNat ys
      let m := digitsToNat ms
      let d := digitsToNat ds
      if 1 ≤ m ∧ m ≤ 12 ∧ 1 ≤ d ∧ d ≤ 31 then
        some (fmtYM (daysFromCivil (y : Int) m d))
      else none
    else none
  | _ => none

/-- The `SELECT strftime('%Y-%m', record_date), SUM(yield_value) ... GROUP BY
month ORDER BY month` query: per-month sums over in-scope rows with
`record_date >= start` (TEXT comparison), ordered by month label. -/
def milk_month_rows (db : DB) (ear_tags : List String) (start : String) :
    List (String × Rat) :=
  let sel := db.milk_yield.filter fun r =>
    ear_tags.contains r.ear_tag ∧ strLe start r.record_date
  let keyed := sel.filterMap fun r =>
    (month_key r.record_date).map fun k => (k, r.yield_value)
  let keys := (keyed.map fun kv => kv.1).eraseDups
  (List.insertionSort strLe keys).map fun k =>
    (k, ((keyed.filter fun kv => kv.1 = k).map fun kv => kv.2).sum)

/-- The data series built by `plot_farm_milk_yield_trend_filtered`: `none`
models the early `return None` on an empty scope (the chart rendering around
the series is presentation and is not modelled).  The 12 labels are
`strftime("%Y-%m", today - (11 - i) * 30 days)`; each label's value is the
queried sum for that label or 0 when absent. -/
def plot_farm_milk_yield_trend_filtered (db : DB) (today : Int)
    (farm status : String) : Option (List (String × Rat)) :=
  let ear_tags := get_filtered_ear_tags db farm status
  if ear_tags.isEmpty then none
  else
    let rows := milk_month_rows db ear_tags (fmtDate (today - 365))
    some ((List.range 12).map fun i =>
      let m := fmtYM (today - (((11 - i) * 30 : Nat) : Int))
      (m, match rows.lookup m with
          | some v => v
          | none => 0))

/-! ### Claim-side (specification) definitions

These definitions render the *spec's wording* and are compared against the
embedded code above (they are used only to state refinement/counterexample
theorems). -/

/-- Spec §3: "an animal's effective status is the most recent Ownership
Event's status, defaulting to 'owned'" — the event with maximal `event_date`
(first in table order among ties). -/
def effective_status (db : DB) (a : Animal) : String :=
  match (db.issue.filter fun i =>
      i.farm_name = a.farm_name ∧ i.ear_tag = a.ear_tag).foldl
    (fun acc i =>
      match acc with
      | none => some i
      | some b =>
        if strLe b.event_date i.event_date ∧ b.event_date ≠ i.event_date then some i
        else some b)
    none with
  | none => "owned"
  | some i => i.event_status.getD "owned"

/-- Claim C1's scope for a non-"Total" status: ear tags of the farm's animals
whose *effective* status equals the given status, ordered ascending (each
animal contributes its tag once). -/
def claim_scope (db : DB) (farm status : String) : List String :=
  List.insertionSort strLe
    ((db.animals.filter fun a =>
      a.farm_name = farm ∧ effective_status db a = status).map fun a => a.ear_tag)

/-- The calendar-month index of a day number (year * 12 + month - 1). -/
def month_index (z : Int) : Int :=
  (civilFromDays z).1 * 12 + ((civilFromDays z).2.1 : Int) - 1

/-- "YYYY-MM" rendering of a calendar-month index. -/
def fmt_month_index (k : Int) : String :=
  pad4 (Int.ediv k 12) ++ "-" ++ pad2 ((Int.emod k 12).toNat + 1)

/-- Claim C2's labels: the 12 trailing *calendar* months ending at the
current month, oldest first. -/
def trailing_month_labels (today : Int) : List String :=
  (List.range 12).map fun i =>
    fmt_month_index (month_index today - ((11 : Int) - (i : Int)))

/-- Claim C3's literal reading of `compute_breeding_diagnosis`: plain
(untrimmed) emptiness and equality tests on the latest record's fields. -/
def breeding_diagnosis_claim (db : DB) (ear_tag : String) : String :=
  match db.animals.find? (fun a => a.ear_tag = ear_tag) with
  | none => "Open"
  | some a =>
    if a.gender ≠ "F" then "Open"
    else
      match latest_repro db a.id with
      | none => "Mating"
      | some r =>
        if r.calving_date.getD "" ≠ "" then "Open"
        else if r.pregnancy_status.getD "" = "임신" then "Pregnant"
        else "Mating"

/-- The female animals that have at least one reproduction record with
non-null parity (the animals over which claim C6's mean ranges). -/
def parity_animals (db : DB) : List Animal :=
  db.animals.filter fun a =>
    a.gender = "F" ∧ (db.repro.filter fun r => r.animal_id = a.id ∧ r.parity.isSome) ≠ []

/-- Claim C6's samples: each qualifying female animal's *latest* (maximal
breeding date) non-null parity. -/
def claim_parity_samples (db : DB) : List Int :=
  db.animals.filterMap fun a =>
    if a.gender = "F" then
      ((db.repro.filter fun r => r.animal_id = a.id ∧ r.parity.isSome).foldl
        (fun acc r =>
          match acc with
          | none => some r
          | some b =>
            if strLe b.breeding_date r.breeding_date ∧ b.breeding_date ≠ r.breeding_date then
              some r
            else some b)
        none).bind fun r => r.parity
    else none

/-- Claim C6's literal average: the mean of each qualifying animal's latest
non-null parity, "-" (`none`) exactly when no qualifying animal exists. -/
def claim_average_parity (db : DB) : Option Rat :=
  if claim_parity_samples db = [] then none
  else some (((claim_parity_samples db).map fun p : Int => (p : Rat)).sum /
    ((claim_parity_samples db).length : Rat))

/-- Claim C9's per-animal test: the birth date is present, parses, and the
age in months — days since birth divided by 30.5 — is strictly below 24. -/
def heifer_age_ok (today : Int) (a : Animal) : Bool :=
  match a.birth_date.bind parseDate with
  | none => false
  | some b => decide ((((today - b : Int) : Rat) / (61 / 2 : Rat)) < 24)

/-- Claim C7's count: only reproduction records of animals *of the given
farm* whose ear tag is in scope. -/
def claim_abortion_count (db : DB) (farm status : String) : Nat :=
  (db.repro.filter fun r =>
    (db.animals.any fun a =>
      a.farm_name = farm ∧ (get_filtered_ear_tags db farm status).contains a.ear_tag ∧
        a.id = r.animal_id) ∧
    is_abortion_status r.delivery_status).length

/-! ### Concrete database fixtures used by witnesses and counterexamples -/

/-- The empty database. -/
def dbEmpty : DB := ⟨[], [], [], [], []⟩

/-- One farm-A animal with two ownership events, `Sell` then a later `Dead`:
its effective (latest) status is `Dead`, yet the LEFT JOIN also emits it for
`Sell`. -/
def dbC1 : DB :=
  { animals := [⟨1, "A", "001", "F", none⟩],
    issue := [⟨"A", "001", some "Sell", "2024-01-01"⟩,
              ⟨"A", "001", some "Dead", "2024-02-01"⟩],
    repro := [], lactation := [], milk_yield := [] }

/-- One farm-A animal with two `Dead` ownership events: the LEFT JOIN emits
its ear tag twice for status `Dead`. -/
def dbC1b : DB :=
  { animals := [⟨1, "A", "001", "F", none⟩],
    issue := [⟨"A", "001", some "Dead", "2024-01-01"⟩,
              ⟨"A", "001", some "Dead", "2024-02-01"⟩],
    repro := [], lactation := [], milk_yield := [] }

/-- One farm-A animal and no milk-yield data (farm "B" resolves to an empty
scope). -/
def dbC2 : DB :=
  { animals := [⟨1, "A", "001", "F", none⟩],
    issue := [], repro := [], lactation := [], milk_yield := [] }

/-- Animal 001's latest record has pregnancy status `"임신 "` (trailing
blank) and empty calving date; animal 002's latest record has a
whitespace-only calving date `" "` and pregnancy status `"임신"`. -/
def dbC3 : DB :=
  { animals := [⟨1, "A", "001", "F", none⟩, ⟨2, "A", "002", "F", none⟩],
    issue := [],
    repro := [⟨1, "2024-01-01", none, some "임신 ", none, some ""⟩,
              ⟨2, "2024-01-01", none, some "임신", none, some " "⟩],
    lactation := [], milk_yield := [] }

/-- One female animal whose only reproduction record has parity 0. -/
def dbC6 : DB :=
  { animals := [⟨1, "A", "001", "F", none⟩],
    issue := [],
    repro := [⟨1, "2024-01-01", some 0, none, none, none⟩],
    lactation := [], milk_yield := [] }

/-- One female animal with two parity-bearing records; the one with the later
breeding date (parity 5) is listed first, so the group-by representative
(modelled as the last row in table order) has parity 3. -/
def dbC6b : DB :=
  { animals := [⟨1, "A", "001", "F", none⟩],
    issue := [],
    repro := [⟨1, "2024-06-01", some 5, none, none, none⟩,
              ⟨1, "2023-01-01", some 3, none, none, none⟩],
    lactation := [], milk_yield := [] }

/-- Two farms share the ear tag "001"; the abortion record belongs to farm
B's animal, but farm A's scope query matches it by ear tag alone. -/
def dbC7 : DB :=
  { animals := [⟨1, "A", "001", "F", none⟩, ⟨2, "B", "001", "F", none⟩],
    issue := [],
    repro := [⟨2, "2024-01-01", none, none, some "Abortion", none⟩],
    lactation := [], milk_yield := [] }

/-- Farm-A fixture for witnesses: one owned female animal (no events), one
lactation period ending 2024-01-20, and a pregnancy-marked repro record for
the second animal. -/
def dbW : DB :=
  { animals := [⟨1, "A", "001", "F", some "2023-01-01"⟩,
                ⟨2, "A", "002", "F", none⟩],
    issue := [],
    repro := [⟨2, "2024-01-01", some 2, some "임신", none, some ""⟩],
    lactation := [⟨1, "2024-01-01 ~ 2024-01-20"⟩],
    milk_yield := [] }

/-! ### Shared helper lemmas -/

theorem mem_of_mem_splitOnChar (sep : Char) (cs : List Char) :
    ∀ part ∈ splitOnChar sep cs, ∀ c ∈ part, c ∈ cs := by
  induction cs with
  | nil =>
    intro part hp c hc
    simp only [splitOnChar, List.mem_singleton] at hp
    subst hp
    cases hc
  | cons x cs ih =>
    intro part hp c hc
    simp only [splitOnChar] at hp
    by_cases hx : x = sep
    · rw [if_pos hx] at hp
      rcases List.mem_cons.mp hp with h | h
      · subst h; cases hc
      · exact List.mem_cons_of_mem x (ih part h c hc)
    · rw [if_neg hx] at hp
      cases hrec : splitOnChar sep cs with
      | nil =>
        rw [hrec] at hp
        simp only [List.mem_singleton] at hp
        subst hp
        rcases List.mem_cons.mp hc with h | h
        · exact h ▸ List.mem_cons_self x cs
        · cases h
      | cons p ps =>
        rw [hrec] at hp
        rcases List.mem_cons.mp hp with h | h
        · subst h
          rcases List.mem_cons.mp hc with h | h
          · exact h ▸ List.mem_cons_self x cs
          · exact List.mem_cons_of_mem x (ih p (hrec ▸ List.mem_cons_self p ps) c h)
        · exact List.mem_cons_of_mem x (ih part (hrec ▸ List.mem_cons_of_mem p h) c hc)

theorem not_isDigit_of_isWhitespace (c : Char) (h : c.isWhitespace = true) :
    c.isDigit = false := by
  simp only [Char.isWhitespace, Bool.or_eq_true, decide_eq_true_eq] at h
  rcases h with ((h | h) | h) | h <;> subst h <;> decide

theorem all_isWhitespace_of_stripChars_eq_nil (cs : List Char)
    (h : stripChars cs = []) : ∀ c ∈ cs, c.isWhitespace = true := by
  unfold stripChars at h
  rw [List.reverse_eq_nil_iff, List.dropWhile_eq_nil_iff] at h
  have hdrop : ∀ c ∈ cs.dropWhile Char.isWhitespace, c.isWhitespace = true := by
    intro c hc
    exact h c (List.mem_reverse.mpr hc)
  intro c hc
  rw [← List.takeWhile_append_dropWhile Char.isWhitespace cs] at hc
  rcases List.mem_append.mp hc with h' | h'
  · exact List.mem_takeWhile_imp h'
  · exact hdrop c h'

theorem parseDateChars_eq_none_of_blank (cs : List Char)
    (h : ∀ c ∈ cs, c.isWhitespace = true) : parseDateChars cs = none := by
  unfold parseDateChars
  cases h1 : splitOnChar '-' cs with
  | nil => rfl
  | cons ys rest =>
    cases rest with
    | nil => rfl
    | cons ms rest2 =>
      cases rest2 with
      | nil => rfl
      | cons ds rest3 =>
        cases rest3 with
        | cons u v => rfl
        | nil =>
          have hy : parseField ys 4 4 = none := by
            unfold parseField
            rw [if_neg]
            rintro ⟨hl, -, hall⟩
            cases ys with
            | nil => simp at hl
            | cons c ys' =>
              have hc : c ∈ cs :=
                mem_of_mem_splitOnChar '-' cs (c :: ys')
                  (h1 ▸ List.mem_cons_self _ _) c (List.mem_cons_self c ys')
              have hw := h c hc
              have hd := List.all_eq_true.mp hall c (List.mem_cons_self c ys')
              rw [not_isDigit_of_isWhitespace c hw] at hd
              cases hd
          simp [hy]

theorem lookup_eq_none_of_not_mem_keys (l : List (String × Rat)) (k : String)
    (h : k ∉ l.map Prod.fst) : l.lookup k = none := by
  induction l with
  | nil => rfl
  | cons p l ih =>
    obtain ⟨a, b⟩ := p
    simp only [List.map_cons, List.mem_cons, not_or] at h
    have hne : (k == a) = false := beq_eq_false_iff_ne.mpr h.1
    show (match k == a with
      | true => some b
      | false => List.lookup k l) = none
    rw [hne]
    exact ih h.2

theorem mem_of_getLast?_eq_some {α : Type} {l : List α} {a : α}
    (h : l.getLast? = some a) : a ∈ l := by
  induction l with
  | nil => cases h
  | cons x l ih =>
    cases l with
    | nil =>
      simp only [List.getLast?_singleton, Option.some.injEq] at h
      exact h ▸ List.mem_cons_self x []
    | cons y t =>
      rw [List.getLast?_cons_cons] at h
      exact List.mem_cons_of_mem x (ih h)

theorem length_filterMap_eq_length_filter {α β : Type} (f : α → Option β)
    (p : α → Bool) (h : ∀ a, (f a).isSome = p a) (l : List α) :
    (l.filterMap f).length = (l.filter p).length := by
  induction l with
  | nil => rfl
  | cons a l ih =>
    rw [List.filterMap_cons, List.filter_cons]
    cases hf : f a with
    | none =>
      have hp : p a = false := by rw [← h a, hf]; rfl
      rw [hp]
      simpa using ih
    | some b =>
      have hp : p a = true := by rw [← h a, hf]; rfl
      rw [hp]
      simp only [List.length_cons, if_true]
      rw [ih]

/-! ### Claim C5 -/

/-- Claim C5: for every farm F and every status S, the set of ear tags
returned by `get_filtered_ear_tags F S` is a subset of the set returned by
`get_filtered_ear_tags F "Total"`. -/
theorem get_filtered_ear_tags_subset_total (db : DB) (farm status : String) :
    get_filtered_ear_tags db farm status ⊆ get_filtered_ear_tags db farm "Total" := by
  by_cases hs : status = "Total"
  · subst hs
    exact fun t ht => ht
  · intro t ht
    unfold get_filtered_ear_tags at ht ⊢
    rw [if_pos hs] at ht
    rw [if_neg (fun h : ¬("Total" : String) = "Total" => h rfl)]
    rcases List.mem_filter.mp ht with ⟨hsort, hne⟩
    have hmem := (List.perm_insertionSort strLe _).mem_iff.mp hsort
    rcases List.mem_flatMap.mp hmem with ⟨a, ha, hta⟩
    rcases List.mem_map.mp hta with ⟨s, _, htag⟩
    refine List.mem_filter.mpr ⟨?_, hne⟩
    refine (List.perm_insertionSort strLe _).mem_iff.mpr ?_
    exact List.mem_map.mpr ⟨a, ha, htag⟩

theorem get_filtered_ear_tags_subset_total_witness :
    "001" ∈ get_filtered_ear_tags dbW "A" "Total" :=
  get_filtered_ear_tags_subset_total dbW "A" "owned" (by decide)

/-! ### Claim C8 -/

/-- Claim C8: whenever the resolved scope is empty, all four scope-based
aggregations return their safe defaults (0.0 total milk yield, 0 lactation
days, empty yield-by-year sequence, 0 abortions) instead of failing. -/
theorem empty_scope_defaults (db : DB) (farm status : String)
    (h : get_filtered_ear_tags db farm status = []) :
    get_farm_total_milk_yield_filtered db farm status = 0 ∧
    get_farm_total_lactation_days_filtered db farm status = 0 ∧
    get_farm_milk_yield_by_year_filtered db farm status = [] ∧
    get_farm_abortion_count_filtered db farm status = 0 := by
  refine ⟨?_, ?_, ?_, ?_⟩ <;>
    simp [get_farm_total_milk_yield_filtered, get_farm_total_lactation_days_filtered,
      get_farm_milk_yield_by_year_filtered, get_farm_abortion_count_filtered, h]

theorem empty_scope_defaults_witness :
    get_farm_total_milk_yield_filtered dbEmpty "A" "owned" = 0 ∧
    get_farm_total_lactation_days_filtered dbEmpty "A" "owned" = 0 ∧
    get_farm_milk_yield_by_year_filtered dbEmpty "A" "owned" = [] ∧
    get_farm_abortion_count_filtered dbEmpty "A" "owned" = 0 :=
  empty_scope_defaults dbEmpty "A" "owned" (by decide)

/-! ### Claim C10 -/

/-- Claim C10: for an ear tag with no `animals` row, the classifiers return
their defaults ("Open" and "Fattening") instead of failing. -/
theorem unknown_ear_tag_defaults (db : DB) (today : Int) (t : String)
    (h : db.animals.find? (fun a => a.ear_tag = t) = none) :
    compute_breeding_diagnosis db t = "Open" ∧
    compute_animal_category db today t = "Fattening" := by
  constructor
  · unfold compute_breeding_diagnosis
    rw [h]
  · unfold compute_animal_category
    rw [h]

theorem unknown_ear_tag_defaults_witness :
    compute_breeding_diagnosis dbEmpty "X" = "Open" ∧
    compute_animal_category dbEmpty 0 "X" = "Fattening" :=
  unknown_ear_tag_defaults dbEmpty 0 "X" (by decide)

/-! ### Claim C1: counterexample -/

/-- Claim C1 is false as stated: in `dbC1` animal 001's *latest* ownership
event is `Dead`, so the claimed scope for status `Sell` is empty, yet
`get_filtered_ear_tags` returns the tag (the LEFT JOIN matches *every*
event, not the latest one); in `dbC1b` two `Dead` events make the same ear
tag appear twice, contradicting "each ear tag appearing once". -/
theorem get_filtered_ear_tags_counterexample :
    (get_filtered_ear_tags dbC1 "A" "Sell" = ["001"] ∧
      claim_scope dbC1 "A" "Sell" = []) ∧
    (get_filtered_ear_tags dbC1b "A" "Dead" = ["001", "001"] ∧
      claim_scope dbC1b "A" "Dead" = ["001"]) := by
  refine ⟨⟨?_, ?_⟩, ?_, ?_⟩ <;> decide

/-! ### Claim C3: counterexample -/

/-- Claim C3 is false as stated: the code compares `pregnancy_status.strip()`
with the marker and tests `calving_date.strip() != ""`, not the plain
equality/non-emptiness of the claim.  Animal 001 (status `"임신 "`, empty
calving date) is classified "Pregnant" where the claim's reading says
"Mating"; animal 002 (whitespace calving date `" "`) is classified
"Pregnant" where the claim's reading says "Open". -/
theorem compute_breeding_diagnosis_counterexample :
    (compute_breeding_diagnosis dbC3 "001" = "Pregnant" ∧
      breeding_diagnosis_claim dbC3 "001" = "Mating") ∧
    (compute_breeding_diagnosis dbC3 "002" = "Pregnant" ∧
      breeding_diagnosis_claim dbC3 "002" = "Open") := by
  refine ⟨⟨?_, ?_⟩, ?_, ?_⟩ <;> decide

/-! ### Claim C7: counterexample -/

/-- Claim C7 is false as stated: the inner `SELECT id FROM animals WHERE
ear_tag IN (...)` has no farm filter, so farm B's animal with the shared ear
tag "001" contributes its abortion record to farm A's count, while the
claim (records of *that farm's* animals) counts 0. -/
theorem get_farm_abortion_count_counterexample :
    get_farm_abortion_count_filtered dbC7 "A" "Total" = 1 ∧
    claim_abortion_count dbC7 "A" "Total" = 0 := by
  refine ⟨?_, ?_⟩ <;> decide

/-! ### Claim C2: counterexample -/

/-- Claim C2 is false as stated: with today = 2024-12-31 the 12 labels are
rendered from `today - (11-i)*30` days, giving "2024-02" … "2024-12" with
"2024-12" twice — not the 12 trailing calendar months "2024-01" … "2024-12"
— and an empty scope (farm "B") yields `none` rather than a 12-entry
all-zero series. -/
theorem plot_trend_counterexample :
    ((plot_farm_milk_yield_trend_filtered dbC2 (daysFromCivil 2024 12 31) "A"
        "Total").map fun l => l.map Prod.fst) =
      some ["2024-02", "2024-03", "2024-04", "2024-05", "2024-06", "2024-07",
            "2024-08", "2024-09", "2024-10", "2024-11", "2024-12", "2024-12"] ∧
    trailing_month_labels (daysFromCivil 2024 12 31) =
      ["2024-01", "2024-02", "2024-03", "2024-04", "2024-05", "2024-06",
       "2024-07", "2024-08", "2024-09", "2024-10", "2024-11", "2024-12"] ∧
    (["2024-02", "2024-03", "2024-04", "2024-05", "2024-06", "2024-07",
      "2024-08", "2024-09", "2024-10", "2024-11", "2024-12", "2024-12"] ≠
      ["2024-01", "2024-02", "2024-03", "2024-04", "2024-05", "2024-06",
       "2024-07", "2024-08", "2024-09", "2024-10", "2024-11", "2024-12"]) ∧
    plot_farm_milk_yield_trend_filtered dbC2 (daysFromCivil 2024 12 31) "B"
      "Total" = none := by
  refine ⟨?_, ?_, ?_, ?_⟩ <;> decide

/-! ### Claim C1: amended theorem -/

theorem countP_map_const {α : Type} (L : List α) (c t : String) :
    ((L.map fun _ => c).countP fun x => x = t) = if c = t then L.length else 0 := by
  induction L with
  | nil => simp
  | cons x L ih =>
    rw [List.map_cons, List.countP_cons, ih]
    by_cases h : c = t
    · rw [if_pos h, if_pos h, if_pos (decide_eq_true h), List.length_cons]
    · rw [if_neg h, if_neg h, if_neg (by simpa using h)]

theorem countP_scope_rows (db : DB) (farm status t : String) (as : List Animal) :
    (((as.filter fun a => a.farm_name = farm).flatMap fun a =>
        ((event_statuses db a).filter fun s => s = status).map fun _ => a.ear_tag).countP
      fun x => x = t) =
    ((as.filter fun a => a.farm_name = farm ∧ a.ear_tag = t).map
      fun a => (event_statuses db a).countP fun s => s = status).sum := by
  induction as with
  | nil => rfl
  | cons a as ih =>
    rw [List.filter_cons, List.filter_cons]
    by_cases hf : a.farm_name = farm
    · rw [if_pos (by simpa using hf)]
      by_cases ht : a.ear_tag = t
      · rw [if_pos (by simp [hf, ht]), List.flatMap_cons, List.countP_append, ih,
          List.map_cons, List.sum_cons, countP_map_const, if_pos ht,
          List.countP_eq_length_filter]
      · rw [if_neg (by simp [ht]), List.flatMap_cons, List.countP_append, ih,
          countP_map_const, if_neg ht]
        omega
    · rw [if_neg (by simpa using hf), if_neg (by simp [hf])]
      exact ih

/-- Claim C1 (amended): for a non-"Total" status, `get_filtered_ear_tags`
returns an ascending list that contains, for each animal of the farm with a
nonempty ear tag, one occurrence of its ear tag per ownership event whose
NULL-defaulted status equals the requested status (with a single implicit
"owned" event for animals having no event rows) — not one occurrence per
animal of matching *latest* status. -/
theorem get_filtered_ear_tags_amended (db : DB) (farm status : String)
    (hs : status ≠ "Total") :
    (get_filtered_ear_tags db farm status).Sorted strLe ∧
    ∀ t : String,
      ((get_filtered_ear_tags db farm status).countP fun x => x = t) =
        if t = "" then 0
        else ((db.animals.filter fun a => a.farm_name = farm ∧ a.ear_tag = t).map
          fun a => (event_statuses db a).countP fun s => s = status).sum := by
  unfold get_filtered_ear_tags
  rw [if_pos hs]
  constructor
  · exact List.Pairwise.filter _ (List.sorted_insertionSort strLe _)
  · intro t
    rw [List.countP_filter]
    by_cases ht : t = ""
    · subst ht
      rw [if_pos rfl]
      apply List.countP_eq_zero.mpr
      intro x _
      simp
    · rw [if_neg ht]
      have hpred : (fun a => decide (a = t) && decide ¬(a = "")) =
          fun a : String => decide (a = t) := by
        funext a
        by_cases h : a = t
        · subst h
          simp [ht]
        · simp [h]
      rw [hpred, List.Perm.countP_eq _ (List.perm_insertionSort strLe _)]
      exact countP_scope_rows db farm status t db.animals

theorem get_filtered_ear_tags_amended_witness :
    (get_filtered_ear_tags dbC1 "A" "Sell").Sorted strLe :=
  (get_filtered_ear_tags_amended dbC1 "A" "Sell" (by decide)).1

/-! ### Claim C7: amended theorem -/

/-- Claim C7 (amended): the abortion count equals the number of reproduction
records whose delivery status case-insensitively equals "abortion" and whose
animal — of *any* farm, since the inner select filters by ear tag only — has
an ear tag in the resolved scope. -/
theorem get_farm_abortion_count_amended (db : DB) (farm status : String) :
    get_farm_abortion_count_filtered db farm status =
      (db.repro.filter fun r =>
        (db.animals.any fun a =>
          (get_filtered_ear_tags db farm status).contains a.ear_tag ∧
            a.id = r.animal_id) ∧
        is_abortion_status r.delivery_status).length := by
  unfold get_farm_abortion_count_filtered
  cases htags : get_filtered_ear_tags db farm status with
  | nil =>
    simp only [htags, List.isEmpty_nil, if_true]
    symm
    rw [List.length_eq_zero, List.filter_eq_nil_iff]
    intro r _
    simp
  | cons t0 ts =>
    simp only [htags, List.isEmpty_cons, Bool.false_eq_true, if_false]
    congr 1
    apply List.filter_congr
    intro r _
    apply decide_eq_decide.mpr
    apply and_congr_left
    intro _
    constructor
    · intro hid
      rcases List.mem_map.mp (List.elem_iff.mp hid) with ⟨a, hafil, haid⟩
      rcases List.mem_filter.mp hafil with ⟨hamem, hacontains⟩
      refine List.any_eq_true.mpr ⟨a, hamem, ?_⟩
      exact decide_eq_true ⟨hacontains, haid⟩
    · intro hany
      rcases List.any_eq_true.mp hany with ⟨a, hamem, hpa⟩
      have hpa' := of_decide_eq_true hpa
      exact List.elem_iff.mpr
        (List.mem_map.mpr ⟨a, List.mem_filter.mpr ⟨hamem, hpa'.1⟩, hpa'.2⟩)

/-! ### Claim C6: counterexample and amended theorem -/

/-- Claim C6 is false as stated.  In `dbC6` a qualifying female animal
exists (parity 0), the claimed mean is 0, yet the code returns the "-"
sentinel because Python's `if row and row[0]:` treats the average 0.0 as
falsy.  In `dbC6b` the bare-column `GROUP BY` representative (modelled as
the last row in table order, since SQLite leaves the choice unspecified and
the subquery has no ORDER BY) has parity 3, so the code's mean is 3 while
the claimed latest-record mean is 5. -/
theorem get_average_parity_counterexample :
    (get_average_parity dbC6 = none ∧ parity_animals dbC6 ≠ [] ∧
      claim_average_parity dbC6 = some 0) ∧
    (get_average_parity dbC6b = some 3 ∧ claim_average_parity dbC6b = some 5) := by
  have h6 : parity_samples dbC6 = [0] := by decide
  have h6b : parity_samples dbC6b = [3] := by decide
  have hc6 : claim_parity_samples dbC6 = [0] := by decide
  have hc6b : claim_parity_samples dbC6b = [5] := by decide
  have hm6 : parity_mean dbC6 = 0 := by
    unfold parity_mean
    rw [h6]
    norm_num
  have hm6b : parity_mean dbC6b = 3 := by
    unfold parity_mean
    rw [h6b]
    norm_num
  refine ⟨⟨?_, by decide, ?_⟩, ?_, ?_⟩
  · unfold get_average_parity
    rw [if_neg (by rw [h6]; simp), if_pos hm6]
  · unfold claim_average_parity
    rw [hc6]
    norm_num
  · unfold get_average_parity
    rw [if_neg (by rw [h6b]; simp), if_neg (by rw [hm6b]; norm_num), hm6b]
  · unfold claim_average_parity
    rw [hc6b]
    norm_num

/-- Claim C6 (amended): `get_average_parity` draws exactly one parity sample
per female animal having a non-null-parity reproduction record (the group-by
bare column supplies a representative record of the group, not necessarily
the latest), returns the mean of those samples, and yields the "-" sentinel
when no such animal exists *or when the mean is exactly 0*. -/
theorem get_average_parity_amended (db : DB) :
    (parity_samples db).length = (parity_animals db).length ∧
    (get_average_parity db = none ↔ parity_animals db = [] ∨ parity_mean db = 0) ∧
    ∀ x, get_average_parity db = some x → x = parity_mean db := by
  have hlen : (parity_samples db).length = (parity_animals db).length := by
    unfold parity_samples parity_animals
    apply length_filterMap_eq_length_filter
    intro a
    by_cases hg : a.gender = "F"
    · rw [if_pos hg]
      cases hr : (db.repro.filter fun r => r.animal_id = a.id ∧ r.parity.isSome).getLast? with
      | none =>
        have hnil := List.getLast?_eq_none_iff.mp hr
        rw [Option.none_bind, decide_eq_false (fun hcon => hcon.2 hnil)]
        rfl
      | some r =>
        have hmem := mem_of_getLast?_eq_some hr
        have hps : r.parity.isSome = true :=
          (of_decide_eq_true (List.mem_filter.mp hmem).2).2
        have hne : (db.repro.filter fun r => r.animal_id = a.id ∧ r.parity.isSome) ≠ [] := by
          intro h
          rw [h] at hr
          cases hr
        obtain ⟨p, hp⟩ := Option.isSome_iff_exists.mp hps
        rw [Option.some_bind, hp, decide_eq_true ⟨hg, hne⟩]
        rfl
    · simp [hg]
  have hsamples_ne : parity_samples db = [] ↔ parity_animals db = [] := by
    constructor
    · intro h
      have h0 := hlen
      rw [h] at h0
      exact List.length_eq_zero.mp h0.symm
    · intro h
      have h0 := hlen
      rw [h] at h0
      exact List.length_eq_zero.mp h0
  refine ⟨hlen, ?_, ?_⟩
  · unfold get_average_parity
    by_cases h1 : parity_samples db = []
    · rw [if_pos h1]
      simp [hsamples_ne.mp h1]
    · rw [if_neg h1]
      by_cases h2 : parity_mean db = 0
      · rw [if_pos h2]
        simp [h2]
      · rw [if_neg h2]
        constructor
        · intro h
          exact absurd h (Option.some_ne_none _)
        · rintro (h | h)
          · exact absurd (hsamples_ne.mpr h) h1
          · exact absurd h h2
  · intro x hx
    unfold get_average_parity at hx
    by_cases h1 : parity_samples db = []
    · rw [if_pos h1] at hx
      cases hx
    · rw [if_neg h1] at hx
      by_cases h2 : parity_mean db = 0
      · rw [if_pos h2] at hx
        cases hx
      · rw [if_neg h2] at hx
        exact (Option.some_inj.mp hx).symm

theorem get_average_parity_amended_witness :
    get_average_parity dbEmpty = none :=
  (get_average_parity_amended dbEmpty).2.1.mpr (Or.inl rfl)

/-! ### Claim C4 -/

theorem splitOnChar_of_not_mem (sep : Char) (cs : List Char) (h : sep ∉ cs) :
    splitOnChar sep cs = [cs] := by
  induction cs with
  | nil => rfl
  | cons c cs ih =>
    simp only [List.mem_cons, not_or] at h
    show (if c = sep then [] :: splitOnChar sep cs else
      match splitOnChar sep cs with
      | [] => [[c]]
      | p :: ps => (c :: p) :: ps) = [c :: cs]
    rw [if_neg (fun e => h.1 e.symm), ih h.2]

/-- Claim C4: for an existing animal, `compute_animal_category` returns
"Fattening" when the animal has no lactation period, or the maximal period
string cannot be split on "~" into two parts, or its (stripped) end date
fails to parse; otherwise, with gap = today − end date in days (possibly
negative), it returns "Milking" when gap ≤ 10 and "Dry" when gap > 10. -/
theorem compute_animal_category_spec (db : DB) (today : Int) (t : String)
    (a : Animal) (ha : db.animals.find? (fun x => x.ear_tag = t) = some a) :
    compute_animal_category db today t =
      match latest_period db a with
      | none => "Fattening"
      | some p =>
        match period_end p with
        | none => "Fattening"
        | some e => if today - e ≤ 10 then "Milking" else "Dry" := by
  simp only [compute_animal_category, ha]
  cases hp : latest_period db a with
  | none => rfl
  | some p =>
    dsimp only
    by_cases hpe : p = ""
    · subst hpe
      rw [if_pos rfl]
      rfl
    · rw [if_neg hpe]
      by_cases htl : '~' ∈ p.data
      · rw [if_neg (fun hcon => hcon htl)]
        cases hsp : splitOnChar '~' p.data with
        | nil =>
          have hnone : period_end p = none := by
            unfold period_end
            rw [hsp]
          rw [hnone]
        | cons x rest =>
          cases rest with
          | nil =>
            have hnone : period_end p = none := by
              unfold period_end
              rw [hsp]
            rw [hnone]
          | cons e rest2 =>
            cases rest2 with
            | nil =>
              have hpd : period_end p = parseDateChars (stripChars e) := by
                unfold period_end
                rw [hsp]
              rw [hpd]
            | cons u v =>
              have hnone : period_end p = none := by
                unfold period_end
                rw [hsp]
              rw [hnone]
      · rw [if_pos htl]
        have hnone : period_end p = none := by
          unfold period_end
          rw [splitOnChar_of_not_mem '~' p.data htl]
        rw [hnone]

theorem compute_animal_category_spec_witness :
    compute_animal_category dbW (daysFromCivil 2024 1 25) "001" = "Milking" := by
  have h := compute_animal_category_spec dbW (daysFromCivil 2024 1 25) "001"
    ⟨1, "A", "001", "F", some "2023-01-01"⟩ (by decide)
  rw [h]
  decide

/-! ### Claim C3: amended theorem -/

/-- Claim C3 (amended): `compute_breeding_diagnosis` returns "Open" for
non-female animals regardless of history, "Mating" when a female has no
reproduction record, and otherwise classifies the maximal-breeding-date
record by *whitespace-trimmed* fields: "Open" when the trimmed calving date
is nonempty, "Pregnant" when the trimmed pregnancy status equals "임신",
"Mating" otherwise. -/
theorem compute_breeding_diagnosis_amended (db : DB) (t : String) (a : Animal)
    (ha : db.animals.find? (fun x => x.ear_tag = t) = some a) :
    (a.gender ≠ "F" → compute_breeding_diagnosis db t = "Open") ∧
    (a.gender = "F" → latest_repro db a.id = none →
      compute_breeding_diagnosis db t = "Mating") ∧
    (∀ r, a.gender = "F" → latest_repro db a.id = some r →
      compute_breeding_diagnosis db t =
        if stripChars (r.calving_date.getD "").data ≠ [] then "Open"
        else if stripChars (r.pregnancy_status.getD "").data = "임신".data then
          "Pregnant"
        else "Mating") := by
  refine ⟨?_, ?_, ?_⟩
  · intro hg
    simp only [compute_breeding_diagnosis, ha]
    rw [if_pos hg]
  · intro hg hr
    simp only [compute_breeding_diagnosis, ha, hr]
    rw [if_neg (fun hcon => hcon hg)]
  · intro r hg hr
    simp only [compute_breeding_diagnosis, ha, hr]
    rw [if_neg (fun hcon => hcon hg)]

theorem compute_breeding_diagnosis_amended_witness :
    compute_breeding_diagnosis dbW "002" = "Pregnant" := by
  have h := (compute_breeding_diagnosis_amended dbW "002"
    ⟨2, "A", "002", "F", none⟩ (by decide)).2.2
    ⟨2, "2024-01-01", some 2, some "임신", none, some ""⟩ rfl (by decide)
  rw [h]
  decide

/-! ### Claim C9 -/

/-- Claim C9: `get_heifer_count` counts exactly the female animals of the
farm whose parseable birth date gives an age in months (days since birth
divided by 30.5) strictly below 24; animals with a missing, empty (or
all-whitespace), or unparseable birth date are excluded and never cause an
error — the explicit whitespace guard in the loop is redundant, since a
whitespace-only birth date never parses. -/
theorem get_heifer_count_spec (db : DB) (today : Int) (farm : String) :
    get_heifer_count db today farm =
      (db.animals.filter fun a =>
        a.farm_name = farm ∧ a.gender = "F" ∧ heifer_age_ok today a = true).length := by
  unfold get_heifer_count
  rw [List.filter_filter]
  congr 1
  apply List.filter_congr
  intro a _
  by_cases hq : a.farm_name = farm ∧ a.gender = "F"
  · rw [decide_eq_true hq, Bool.and_true]
    have hiff : (a.farm_name = farm ∧ a.gender = "F" ∧ heifer_age_ok today a = true) ↔
        (heifer_age_ok today a = true) :=
      ⟨fun h => h.2.2, fun h => ⟨hq.1, hq.2, h⟩⟩
    rw [decide_eq_decide.mpr hiff, Bool.decide_coe]
    cases hb : a.birth_date with
    | none =>
      unfold heifer_age_ok
      rw [hb, Option.none_bind]
    | some s =>
      unfold heifer_age_ok
      rw [hb, Option.some_bind]
      dsimp only
      by_cases hstrip : stripChars s.data = []
      · rw [if_pos hstrip]
        have hparse : parseDate s = none :=
          parseDateChars_eq_none_of_blank s.data
            (all_isWhitespace_of_stripChars_eq_nil s.data hstrip)
        rw [hparse]
      · rw [if_neg hstrip]
  · rw [decide_eq_false hq, Bool.and_false]
    symm
    exact decide_eq_false fun hcon => hq ⟨hcon.1, hcon.2.1⟩

/-! ### Claim C2: amended theorem -/

/-- Claim C2 (amended): when the resolved scope is nonempty the series has
exactly 12 entries; entry i is labelled `strftime("%Y-%m", today − (11−i)·30
days)` — 30-day steps whose underlying dates increase with i but which can
repeat or skip calendar months — and every label absent from the queried
per-month sums has total 0.  When the scope is empty the function returns
`none` instead of a 12-entry all-zero series. -/
theorem plot_trend_amended (db : DB) (today : Int) (farm status : String) :
    (get_filtered_ear_tags db farm status = [] →
      plot_farm_milk_yield_trend_filtered db today farm status = none) ∧
    ∀ l, plot_farm_milk_yield_trend_filtered db today farm status = some l →
      l.length = 12 ∧
      (∀ i, ∀ h : i < l.length,
        (l.get ⟨i, h⟩).1 = fmtYM (today - (((11 - i) * 30 : Nat) : Int))) ∧
      (∀ m v, (m, v) ∈ l →
        m ∉ (milk_month_rows db (get_filtered_ear_tags db farm status)
            (fmtDate (today - 365))).map Prod.fst →
        v = 0) := by
  unfold plot_farm_milk_yield_trend_filtered
  cases htags : get_filtered_ear_tags db farm status with
  | nil =>
    constructor
    · intro _
      rfl
    · intro l hl
      exact Option.noConfusion hl
  | cons t0 ts =>
    constructor
    · intro hcon
      exact absurd hcon (List.cons_ne_nil t0 ts)
    · intro l hl
      simp only [List.isEmpty_cons, Bool.false_eq_true, if_false] at hl
      have hl' : l = (List.range 12).map fun i =>
          (fmtYM (today - (((11 - i) * 30 : Nat) : Int)),
            match (milk_month_rows db (t0 :: ts) (fmtDate (today - 365))).lookup
                (fmtYM (today - (((11 - i) * 30 : Nat) : Int))) with
            | some v => v
            | none => 0) :=
        (Option.some_inj.mp hl).symm
      subst hl'
      refine ⟨?_, ?_, ?_⟩
      · rw [List.length_map, List.length_range]
      · intro i h
        rw [List.get_eq_getElem, List.getElem_map, List.getElem_range]
      · intro m v hmem hnot
        rcases List.mem_map.mp hmem with ⟨i, _, hfi⟩
        have hm := congrArg Prod.fst hfi
        have hv := congrArg Prod.snd hfi
        dsimp only at hm hv
        rw [← hm] at hnot
        rw [lookup_eq_none_of_not_mem_keys _ _ hnot] at hv
        exact hv.symm

theorem plot_trend_amended_witness :
    plot_farm_milk_yield_trend_filtered dbEmpty 0 "A" "Total" = none :=
  (plot_trend_amended dbEmpty 0 "A" "Total").1 (by decide)
